import Mathlib

set_option maxRecDepth 2000

/-!
# Verification of the Nayaya.ai backend against its specification

Shallow embedding of the Python backend (`backend/api/rag.py`,
`backend/api/vertex_ai.py`, `backend/api/qa.py`, `backend/models/document.py`)
into Lean 4, together with theorems settling the specification claims about
the chunker, the cosine-similarity retriever, the clause classifier, the
question-answering fallback behaviour and the overall-risk aggregation.

Conventions of the embedding:
* Python `str` is modelled as Lean `String`; slicing `s[:n]` is `String.take s n`
  and `len(s)` is `String.length s`.
* Python floats are modelled as real numbers (`ℝ`) where square roots occur
  (cosine similarity) and as rationals (`ℚ`) elsewhere.
* `dict.get(key, default)` is modelled with `Option` fields and `Option.getD`.
* Fallible Python code (code that can raise) returns `Except`.
-/

namespace Nayaya

/-! ## `models/document.py` -/

/-- `RiskLevel(str, Enum)` from `models/document.py`: high / medium / low. -/
inductive RiskLevel where
  | high
  | medium
  | low
deriving DecidableEq, Repr

/-- The `.value` string of a `RiskLevel` member. -/
def RiskLevel.value : RiskLevel → String
  | .high => "high"
  | .medium => "medium"
  | .low => "low"

/-- All members of `RiskLevel`, in declaration order. -/
def RiskLevel.all : List RiskLevel := [.high, .medium, .low]

/-- Calling the enum on a value string, `RiskLevel(s)` in Python:
`some` member on success, `none` where Python raises `ValueError`. -/
def RiskLevel.fromValue (s : String) : Option RiskLevel :=
  RiskLevel.all.find? (fun r => r.value == s)

/-- `ProcessingStatus(str, Enum)` from `models/document.py`. -/
inductive ProcessingStatus where
  | uploaded
  | processing
  | ocr_complete
  | classified
  | analyzed
  | complete
  | failed
deriving DecidableEq, Repr

/-- `ClauseType(str, Enum)` from `models/document.py`, lines 29-55.
It declares exactly these 26 members.  Note that, unlike `DocumentType`,
it declares **no** `OTHER` member: `ClauseType("other")` raises `ValueError`
and the attribute access `ClauseType.OTHER` raises `AttributeError`. -/
inductive ClauseType where
  | parties_involved
  | definitions
  | purpose_scope
  | payment_terms
  | fees_charges
  | penalties
  | interest
  | security_deposit
  | refund_policy
  | contract_duration
  | termination
  | auto_renewal
  | exit_fees
  | warranties
  | obligations
  | limitation_liability
  | indemnification
  | governing_law
  | dispute_resolution
  | data_ownership
  | data_sharing
  | confidentiality
  | non_compete
  | ip_rights
  | amendments
  | severability
deriving DecidableEq, Repr

/-- The `.value` string of a `ClauseType` member. -/
def ClauseType.value : ClauseType → String
  | .parties_involved => "parties_involved"
  | .definitions => "definitions"
  | .purpose_scope => "purpose_scope"
  | .payment_terms => "payment_terms"
  | .fees_charges => "fees_charges"
  | .penalties => "penalties"
  | .interest => "interest"
  | .security_deposit => "security_deposit"
  | .refund_policy => "refund_policy"
  | .contract_duration => "contract_duration"
  | .termination => "termination"
  | .auto_renewal => "auto_renewal"
  | .exit_fees => "exit_fees"
  | .warranties => "warranties"
  | .obligations => "obligations"
  | .limitation_liability => "limitation_liability"
  | .indemnification => "indemnification"
  | .governing_law => "governing_law"
  | .dispute_resolution => "dispute_resolution"
  | .data_ownership => "data_ownership"
  | .data_sharing => "data_sharing"
  | .confidentiality => "confidentiality"
  | .non_compete => "non_compete"
  | .ip_rights => "ip_rights"
  | .amendments => "amendments"
  | .severability => "severability"

/-- All 26 members of `ClauseType`, in declaration order
(the list `[ct.value for ct in ClauseType]` ranges over these). -/
def ClauseType.all : List ClauseType :=
  [.parties_involved, .definitions, .purpose_scope, .payment_terms,
   .fees_charges, .penalties, .interest, .security_deposit, .refund_policy,
   .contract_duration, .termination, .auto_renewal, .exit_fees, .warranties,
   .obligations, .limitation_liability, .indemnification, .governing_law,
   .dispute_resolution, .data_ownership, .data_sharing, .confidentiality,
   .non_compete, .ip_rights, .amendments, .severability]

/-- Calling the enum on a value string, `ClauseType(s)` in Python:
`some` member on success, `none` where Python raises `ValueError`.
In particular `ClauseType.fromValue "other" = none`. -/
def ClauseType.fromValue (s : String) : Option ClauseType :=
  ClauseType.all.find? (fun c => c.value == s)

/-- `Citation` pydantic model from `models/document.py`. -/
structure Citation where
  source : String
  reference : String
  url : Option String
deriving DecidableEq, Repr

/-- `ClauseAnalysis` pydantic model from `models/document.py` (the fields the
analysed code populates; the remaining optional fields `citations`,
`start_position`, `end_position` keep their defaults and are omitted). -/
structure ClauseAnalysis where
  id : String
  clause_type : ClauseType
  original_text : String
  plain_language : String
  risk_level : RiskLevel
  risk_reason : String
  recommendations : List String
  confidence_score : ℚ
deriving DecidableEq, Repr

/-! ## `api/rag.py`: the chunker (`create_text_chunks`, lines 128-175) -/

/-- A paragraph dict from `extracted_data["paragraphs"]`; fields are read with
`paragraph.get("text", "")`, `paragraph.get("page", 1)`,
`paragraph.get("confidence", 0.0)`, so each is optional. -/
structure PyParagraph where
  text : Option String
  page : Option ℤ
  confidence : Option ℚ
deriving DecidableEq, Repr

/-- A clause dict from `doc_data["clauses"]` as read by the chunker with
`clause.get(key, "")`; every field is optional. -/
structure PyClause where
  clause_type : Option String
  original_text : Option String
  plain_language : Option String
  risk_level : Option String
  risk_reason : Option String
  id : Option String
deriving DecidableEq, Repr

/-- The `metadata` dict attached to a chunk; one shape per chunk kind
(the redundant `"chunk_type"` key, which repeats the chunk's type tag,
is not modelled separately). -/
inductive ChunkMeta where
  | fullDoc (length : ℕ)
  | clauseMeta (clause_type : String) (risk_level : String) (clause_id : String)
  | paragraphMeta (paragraph_index : ℕ) (page : ℤ) (confidence : ℚ)
deriving DecidableEq, Repr

/-- A chunk as built by `create_text_chunks`:
`{"text": ..., "type": ..., "metadata": {...}}`. -/
structure Chunk where
  text : String
  type : String
  metadata : ChunkMeta
deriving DecidableEq, Repr

/-- The clause-chunk text template of `rag.py` line 150. -/
def clauseChunkText (clause : PyClause) : String :=
  "Clause Type: " ++ clause.clause_type.getD "" ++
  "\n\nOriginal Text: " ++ clause.original_text.getD "" ++
  "\n\nPlain Language: " ++ clause.plain_language.getD "" ++
  "\n\nRisk: " ++ clause.risk_level.getD "" ++ " - " ++ clause.risk_reason.getD ""

/-- The full-document chunk appended first by `create_text_chunks`,
lines 138-145: first 2000 characters of the raw text. -/
def fullDocumentChunk (raw_text : String) : Chunk :=
  { text := raw_text.take 2000, type := "document",
    metadata := .fullDoc raw_text.length }

/-- The chunk built for one clause, lines 148-158. -/
def clauseChunk (clause : PyClause) : Chunk :=
  { text := clauseChunkText clause, type := "clause",
    metadata := .clauseMeta (clause.clause_type.getD "")
      (clause.risk_level.getD "") (clause.id.getD "") }

/-- The chunk built for the paragraph at index `i` of `paragraphs[:10]`,
lines 164-173. -/
def paragraphChunk (i : ℕ) (paragraph : PyParagraph) : Chunk :=
  { text := paragraph.text.getD "", type := "paragraph",
    metadata := .paragraphMeta i (paragraph.page.getD 1)
      (paragraph.confidence.getD 0) }

/-- The paragraph-chunk block of `create_text_chunks`, lines 160-173:
when the paragraph list is non-empty, one chunk per paragraph among the
first ten (`paragraphs[:10]`, `enumerate` indices) whose text is longer
than 100 characters. -/
def paragraphChunks (paragraphs : List PyParagraph) : List Chunk :=
  if 0 < paragraphs.length then
    (paragraphs.take 10).enum.filterMap fun ip =>
      if 100 < (ip.2.text.getD "").length then
        some (paragraphChunk ip.1 ip.2)
      else none
  else []

/-- `create_text_chunks(raw_text, paragraphs, clauses)` from `rag.py`
lines 128-175: the full-document chunk, then the clause chunks in clause
order, then the qualifying paragraph chunks. -/
def create_text_chunks (raw_text : String) (paragraphs : List PyParagraph)
    (clauses : List PyClause) : List Chunk :=
  [fullDocumentChunk raw_text] ++
    clauses.map clauseChunk ++ paragraphChunks paragraphs

/-! ## `api/rag.py`: cosine similarity (`calculate_cosine_similarity`, lines 249-264)

Floats are modelled as real numbers.  The `try/except` wrapping the numpy
computation is modelled by the length-mismatch branch: `np.dot` on 1-D arrays
of different lengths raises, the bare `except` catches it and the function
returns `0.0`; on equal lengths the numpy expressions are total. -/

/-- `np.dot(vec1, vec2)` for equal-length 1-D arrays: the sum of the
componentwise products. -/
def npDot (vec1 vec2 : List ℝ) : ℝ :=
  (List.zipWith (· * ·) vec1 vec2).sum

/-- `np.linalg.norm(vec)`: the square root of the sum of the squares. -/
noncomputable def npNorm (vec : List ℝ) : ℝ :=
  Real.sqrt ((vec.map fun x => x ^ 2).sum)

open Classical in
/-- `calculate_cosine_similarity(vec1, vec2)` from `rag.py` lines 249-264:
`0.0` when the lengths differ (the numpy dot product raises and the bare
`except` returns `0.0`), `0.0` when either norm is zero, and otherwise
the dot product divided by the product of the norms. -/
noncomputable def calculate_cosine_similarity (vec1 vec2 : List ℝ) : ℝ :=
  if vec1.length ≠ vec2.length then 0.0
  else if npNorm vec1 = 0 ∨ npNorm vec2 = 0 then 0.0
  else npDot vec1 vec2 / (npNorm vec1 * npNorm vec2)

/-! ## `api/rag.py`: knowledge-base search (`search_knowledge_base`, lines 177-247)

The endpoint is modelled from the point where the document has been fetched
and the access check has passed (the claims under verification concern an
existing, accessible document).  The Firestore query
`embeddings_collection.where("document_id", "==", document_id)` is modelled
by passing the document's stored embedding records directly, and the
query-embedding call by passing the resulting query vector. -/

/-- `{"status_code": ..., "detail": ...}` of a fastapi `HTTPException`. -/
structure HTTPError where
  status_code : ℕ
  detail : String
deriving DecidableEq, Repr

/-- A record of the `embeddings` Firestore collection as read back by the
search: `embedding_data.get("embedding", [])` defaults to the empty list,
so the vector is modelled as a plain (possibly empty) list. -/
structure StoredEmbedding where
  chunk_id : String
  text : String
  chunk_type : String
  metadata : ChunkMeta
  embedding : List ℝ

/-- One entry of the `results` list built by the search loop. -/
structure SearchResult where
  chunk_id : String
  text : String
  chunk_type : String
  metadata : ChunkMeta
  similarity : ℝ

/-- The JSON body returned by `search_knowledge_base`. -/
structure SearchResponse where
  query : String
  results : List SearchResult
  total_searched : ℕ

/-- The document fields `search_knowledge_base` reads:
`doc_data.get("knowledge_base_created")`. -/
structure KBDocument where
  knowledge_base_created : Bool
deriving DecidableEq, Repr

/-- Python list slicing `l[:n]` for an arbitrary integer `n`:
the first `n` elements for `0 ≤ n`, all but the last `-n` otherwise. -/
def pySlice {α : Type} (l : List α) (n : ℤ) : List α :=
  if 0 ≤ n then l.take n.toNat else l.take (l.length - (-n).toNat)

open Classical in
/-- `search_knowledge_base(document_id, query, limit)` from `rag.py`
lines 177-247, for an existing accessible document: fails with 400 when the
knowledge-base flag is unset; otherwise scores every stored record with a
non-empty embedding vector against the query vector, sorts descending by
similarity (Python's stable `sort` with `reverse=True`, modelled by
`List.mergeSort` on the reversed comparison) and truncates to `limit`. -/
noncomputable def search_knowledge_base (doc : KBDocument)
    (stored : List StoredEmbedding) (query : String) (query_vector : List ℝ)
    (limit : ℤ) : Except HTTPError SearchResponse :=
  if ¬ doc.knowledge_base_created then
    .error ⟨400, "Knowledge base not created for this document"⟩
  else
    let results := stored.filterMap fun e =>
      if e.embedding ≠ [] then
        some { chunk_id := e.chunk_id, text := e.text,
               chunk_type := e.chunk_type, metadata := e.metadata,
               similarity := calculate_cosine_similarity query_vector e.embedding }
      else none
    let sorted := results.mergeSort fun a b => decide (b.similarity ≤ a.similarity)
    .ok { query := query, results := pySlice sorted limit,
          total_searched := results.length }

/-! ## `api/vertex_ai.py`: clause segmentation and classification
(`segment_and_classify_clauses`, lines 154-245)

The generation adapter is opaque: its output is abstracted as either an
unparseable string (where `json.loads` raises `JSONDecodeError`) or the
parsed structure — a list of clause dicts, each field read with
`clause_data.get(key, default)`. -/

/-- One clause dict of the parsed generation output. -/
structure RawClause where
  clause_type : Option String
  original_text : Option String
  plain_language : Option String
  risk_level : Option String
  risk_reason : Option String
  recommendations : Option (List String)
deriving DecidableEq, Repr

/-- The generation response for the clause-segmentation prompt, as seen by
the JSON-parsing layer: either not parseable, or the list under the
`"clauses"` key (missing key defaults to `[]`). -/
inductive GenClausesResponse where
  | unparseable
  | parsed (clauses : List RawClause)
deriving DecidableEq, Repr

/-- The Python exceptions the classifier body can raise. -/
inductive PyError where
  | valueError
  | attributeError
deriving DecidableEq, Repr

/-- `str(e)` of a `PyError` (the concrete Python message text is not
load-bearing for any claim and is abbreviated to the exception class). -/
def PyError.message : PyError → String
  | .valueError => "ValueError"
  | .attributeError => "AttributeError"

/-- The body of the `for i, clause_data in enumerate(...)` loop of
`segment_and_classify_clauses`, lines 202-224: validate the clause type
against the enum values (defaulting the string to `"other"`), validate the
risk level (defaulting to `"medium"`), then construct the `ClauseAnalysis`
through the enum calls `ClauseType(clause_type)` and `RiskLevel(risk_level)`.
`ClauseType("other")` raises `ValueError` because the enum has no member with
value `"other"`. -/
def processRawClause (i : ℕ) (clause_data : RawClause) :
    Except PyError ClauseAnalysis :=
  let clause_type0 := clause_data.clause_type.getD "other"
  let clause_type :=
    if (ClauseType.all.map ClauseType.value).contains clause_type0 then
      clause_type0
    else "other"
  let risk_level0 := clause_data.risk_level.getD "medium"
  let risk_level :=
    if (RiskLevel.all.map RiskLevel.value).contains risk_level0 then
      risk_level0
    else "medium"
  match ClauseType.fromValue clause_type with
  | none => .error .valueError
  | some ct =>
    match RiskLevel.fromValue risk_level with
    | none => .error .valueError
    | some rl =>
      .ok { id := "clause_" ++ toString (i + 1),
            clause_type := ct,
            original_text := (clause_data.original_text.getD "").take 2000,
            plain_language := (clause_data.plain_language.getD "").take 500,
            risk_level := rl,
            risk_reason := (clause_data.risk_reason.getD "").take 300,
            recommendations := (clause_data.recommendations.getD []).take 3,
            confidence_score := 0.8 }

/-- `segment_and_classify_clauses(model, text, paragraphs)` from
`vertex_ai.py` lines 154-245, as a function of the abstracted generation
response.  On a parsed response the loop over `result.get("clauses", [])`
runs `processRawClause` on each entry; the first raised exception aborts the
whole call (only `json.JSONDecodeError` is caught).  On an unparseable
response the `except json.JSONDecodeError` fallback (lines 228-245)
constructs `ClauseType.OTHER` — but `ClauseType` declares no member `OTHER`
(see `ClauseType`), so the attribute access raises `AttributeError` and the
synthetic fallback clause is never built. -/
def segment_and_classify_clauses (text : String)
    (response : GenClausesResponse) : Except PyError (List ClauseAnalysis) :=
  match response with
  | .parsed clauses_data =>
      clauses_data.enum.mapM fun ic => processRawClause ic.1 ic.2
  | .unparseable => .error .attributeError

/-- The synthetic fallback clause that lines 230-245 *intend* to return on
unparseable output (type `other`, risk medium, confidence 0.3, generic
caution message).  It is not constructible as a `ClauseAnalysis` because the
`ClauseType` enum has no `other` member; stated here over the raw field
values for reference in the bug analysis. -/
def fallbackClauseIntent (text : String) : RawClause :=
  { clause_type := some "other",
    original_text := some (text.take 2000),
    plain_language := some "This document contains legal terms that require careful review. Please consult with a legal professional for detailed analysis.",
    risk_level := some "medium",
    risk_reason := some "Unable to automatically parse document structure.",
    recommendations := some
      ["Review the entire document carefully",
       "Consult with a qualified attorney",
       "Ask questions about unclear terms"] }

/-! ## `api/vertex_ai.py`: the `/classify-clauses` endpoint
(`classify_document_clauses`, lines 31-121)

Modelled from the point where the document has been fetched (it exists); the
remaining inputs are the access-check outcome and the two abstracted
generation responses.  The endpoint is a state transition on the Firestore
document record: it returns the HTTP outcome together with the final record.
The `updated_at` / `classification_timestamp` server timestamps are not
modelled. -/

/-- The Firestore document fields read and written by `/classify-clauses`. -/
structure DocRecord where
  processing_status : ProcessingStatus
  raw_text : String
  clauses : List ClauseAnalysis
  document_type : Option String
  error_message : Option String
deriving DecidableEq, Repr

/-- The JSON body returned by `/classify-clauses` on success (the
`clause_types` field, a Python `set` with nondeterministic iteration order,
is not modelled). -/
structure ClassifyResponse where
  document_type : String
  clauses_found : ℕ
deriving DecidableEq, Repr

/-- `classify_document_type(model, text)` from `vertex_ai.py` lines 123-152,
as a function of the generation response text: strip, lowercase, and coerce
any answer outside the fixed 7-value list to `"other"`. -/
def classify_document_type (response_text : String) : String :=
  let document_type := response_text.trim.toLower
  if ["rental_agreement", "loan_contract", "employment_contract",
      "terms_of_service", "privacy_policy", "nda", "other"].contains
      document_type then
    document_type
  else "other"

/-- `classify_document_clauses(request)` from `vertex_ai.py` lines 31-121,
for an existing document.  Control flow of the `try` body: access check
(403), OCR-prerequisite check (400), status update to `processing`,
empty-text check (400), the two generation steps, status update to
`classified` with the clauses.  The `except HTTPException` handler
(lines 103-110) updates the record to `failed` with error message
`"Clause classification failed"` before re-raising; the generic `except`
handler (lines 111-121) updates to `failed` with `str(e)` and raises a 500
carrying `str(e)`. -/
def classify_document_clauses (doc : DocRecord) (access_denied : Bool)
    (type_response_text : String) (clauses_response : GenClausesResponse) :
    Except HTTPError ClassifyResponse × DocRecord :=
  if access_denied then
    (.error ⟨403, "Access denied"⟩,
     { doc with processing_status := .failed,
                error_message := some "Clause classification failed" })
  else if doc.processing_status ≠ ProcessingStatus.ocr_complete then
    (.error ⟨400, "Document must complete OCR processing first"⟩,
     { doc with processing_status := .failed,
                error_message := some "Clause classification failed" })
  else
    -- doc_ref.update({"processing_status": PROCESSING}) has happened here
    if doc.raw_text = "" then
      (.error ⟨400, "No text found in document"⟩,
       { doc with processing_status := .failed,
                  error_message := some "Clause classification failed" })
    else
      let document_type := classify_document_type type_response_text
      match segment_and_classify_clauses doc.raw_text clauses_response with
      | .error e =>
          (.error ⟨500, "Clause classification failed: " ++ e.message⟩,
           { doc with processing_status := .failed,
                      error_message := some e.message })
      | .ok clauses =>
          (.ok { document_type := document_type,
                 clauses_found := clauses.length },
           { doc with processing_status := .classified,
                      document_type := some document_type,
                      clauses := clauses })

/-! ## `api/vertex_ai.py`: overall risk (`calculate_overall_risk`,
lines 395-411) -/

/-- The `risk_scores` dict `{"high": 3, "medium": 2, "low": 1}` keyed by
`clause.risk_level.value`. -/
def risk_scores : RiskLevel → ℕ
  | .high => 3
  | .medium => 2
  | .low => 1

/-- `total_score / len(clauses)` of `calculate_overall_risk`, as a rational
(Python float division of small integers is exact here). -/
def average_risk_score (clauses : List ClauseAnalysis) : ℚ :=
  ((clauses.map fun c => (risk_scores c.risk_level : ℚ)).sum) / clauses.length

/-- `calculate_overall_risk(clauses)` from `vertex_ai.py` lines 395-411:
`"medium"` for an empty list, otherwise `"high"` when the average score is
at least 2.5, `"medium"` when it is at least 1.5, `"low"` otherwise. -/
def calculate_overall_risk (clauses : List ClauseAnalysis) : String :=
  if clauses = [] then "medium"
  else if 2.5 ≤ average_risk_score clauses then "high"
  else if 1.5 ≤ average_risk_score clauses then "medium"
  else "low"

/-! ## `api/qa.py`: answer generation (`generate_answer`, lines 129-231)

The generation call and JSON parse are abstracted as an outcome: the call
(or the later `float(...)` conversion) raised; the response text was not
parseable JSON; or it parsed to a dict with an optional `"answer"` string
and a numeric `"confidence"` (missing key defaults to `0.5`, folded into the
`parsed` payload).  The `sources` list assembled from the retrieval contexts
in lines 140-167 is passed in directly. -/

/-- A legal-corpus search hit as consumed by `create_citations`. -/
structure QALegalCtx where
  source : Option String
  title : Option String
  link : Option String
deriving DecidableEq, Repr

/-- The abstracted outcome of `model.generate_content` + `json.loads` +
`float(result.get("confidence", 0.5))` inside `generate_answer`. -/
inductive QAGenOutcome where
  | raisesOther
  | badJson
  | parsed (answer : Option String) (confidence : ℚ)

/-- The dict returned by `generate_answer`. -/
structure QAAnswerData where
  answer : String
  confidence : ℚ
  sources : List String
  citations : List Citation

/-- `create_citations(legal_context)` from `qa.py` lines 233-245. -/
def create_citations (legal_context : List QALegalCtx) : List Citation :=
  legal_context.map fun ctx =>
    { source := ctx.source.getD "Legal Reference",
      reference := ctx.title.getD "Unknown Reference",
      url := ctx.link }

/-- The disclaimer sentence common to every answer `generate_answer`
returns (success and both fallbacks). -/
def disclaimerText : String :=
  "⚠️ This analysis is for educational purposes only and does not constitute legal advice."

/-- `generate_answer(...)` from `qa.py` lines 129-231, restricted to the
`try/except` block (lines 198-231): on success, append the disclaimer to the
answer and clamp the confidence into [0, 1]; on `JSONDecodeError`, return the
canned 0.3-confidence fallback; on any other exception, return the canned
0.2-confidence fallback naming the document type. -/
def generate_answer (outcome : QAGenOutcome) (sources : List String)
    (document_type : String) (legal_context : List QALegalCtx) :
    QAAnswerData :=
  match outcome with
  | .parsed ans confidence =>
      let answer := ans.getD
        "I couldn't find relevant information in the document to answer your question."
      let answer := answer ++
        "\n\n⚠️ This analysis is for educational purposes only and does not constitute legal advice. Please consult with a qualified attorney for legal decisions."
      { answer := answer,
        confidence := min (max confidence 0) 1,
        sources := sources.take 5,
        citations := create_citations legal_context }
  | .badJson =>
      { answer := "I found some relevant information in your document, but I'm having trouble providing a detailed analysis right now. Please try rephrasing your question or consult the document clauses directly.\n\n⚠️ This analysis is for educational purposes only and does not constitute legal advice.",
        confidence := 0.3,
        sources := sources.take 3,
        citations := [] }
  | .raisesOther =>
      { answer := "I encountered an issue while analyzing your question. The document appears to be a " ++
          (document_type.replace "_" " ") ++
          ", but I cannot provide a specific answer at this time. Please review the document directly or consult with a legal professional.\n\n⚠️ This analysis is for educational purposes only and does not constitute legal advice.",
        confidence := 0.2,
        sources := [],
        citations := [] }

/-! ## Helper lemmas -/

/-- Length of a guarded `filterMap`: one output element per input element
satisfying the guard. -/
theorem length_filterMap_ite {α β : Type} (l : List α) (q : α → Prop)
    [DecidablePred q] (g : α → β) :
    (l.filterMap fun x => if q x then some (g x) else none).length
      = l.countP fun x => decide (q x) := by
  induction l with
  | nil => rfl
  | cons a l ih =>
    by_cases h : q a <;>
      simp [List.filterMap_cons, List.countP_cons, h, ih]

/-- Length of a guarded `filterMap` over an enumerated list, when the guard
only looks at the element: one output element per element satisfying the
guard. -/
theorem length_filterMap_enumFrom_ite {α β : Type} (l : List α) (n : ℕ)
    (q : α → Prop) [DecidablePred q] (g : ℕ → α → β) :
    ((l.enumFrom n).filterMap fun ip =>
        if q ip.2 then some (g ip.1 ip.2) else none).length
      = l.countP fun x => decide (q x) := by
  induction l generalizing n with
  | nil => rfl
  | cons a l ih =>
    by_cases h : q a <;>
      simp [List.enumFrom_cons, List.filterMap_cons, List.countP_cons, h, ih]

/-- A string whose `take` is empty was empty or was cut to length zero. -/
theorem string_take_ne_empty {s : String} {n : ℕ} (hs : s ≠ "") (hn : n ≠ 0) :
    s.take n ≠ "" := by
  intro h
  rw [String.ext_iff, String.data_take] at h
  rcases List.take_eq_nil_iff.mp h with h' | h'
  · exact hn h'
  · exact hs (String.ext h')

/-- Every member of the paragraph-chunk block carries the type tag
`"paragraph"` and non-trivial text (longer than 100 characters). -/
theorem mem_paragraphChunks {c : Chunk} {paragraphs : List PyParagraph}
    (hc : c ∈ paragraphChunks paragraphs) :
    c.type = "paragraph" ∧ 100 < c.text.length := by
  rw [paragraphChunks] at hc
  split at hc
  · rw [List.mem_filterMap] at hc
    obtain ⟨ip, _, hip⟩ := hc
    by_cases hq : 100 < (ip.2.text.getD "").length
    · rw [if_pos hq] at hip
      obtain rfl := Option.some_injective _ hip
      exact ⟨rfl, hq⟩
    · rw [if_neg hq] at hip
      exact absurd hip (by simp)
  · exact absurd hc (by simp)

/-- The paragraph-chunk block has one chunk per paragraph among the first
ten whose text exceeds 100 characters. -/
theorem length_paragraphChunks (paragraphs : List PyParagraph) :
    (paragraphChunks paragraphs).length
      = (paragraphs.take 10).countP
          fun p => decide (100 < (p.text.getD "").length) := by
  rw [paragraphChunks]
  split
  · exact length_filterMap_enumFrom_ite (paragraphs.take 10) 0
      (fun p => 100 < (p.text.getD "").length) paragraphChunk
  · next h =>
      have : paragraphs = [] := by
        cases paragraphs with
        | nil => rfl
        | cons a l => exact absurd (by simp) h
      subst this
      rfl

/-! ## Claim theorems -/

/-- **C8** — For every input (raw text, paragraph list, clause list), the
chunker produces at least one chunk, the first being a full-document chunk
whose text is the first 2000 characters of the raw text, even when clauses
and paragraphs are empty; the number of clause chunks equals the number of
input clauses exactly, and the number of paragraph chunks never exceeds
10. -/
theorem create_text_chunks_shape_spec (raw_text : String)
    (paragraphs : List PyParagraph) (clauses : List PyClause) :
    1 ≤ (create_text_chunks raw_text paragraphs clauses).length ∧
    (create_text_chunks raw_text paragraphs clauses).head? =
      some { text := raw_text.take 2000, type := "document",
             metadata := .fullDoc raw_text.length } ∧
    ((create_text_chunks raw_text paragraphs clauses).countP
        fun c => c.type == "clause") = clauses.length ∧
    ((create_text_chunks raw_text paragraphs clauses).countP
        fun c => c.type == "paragraph") ≤ 10 := by
  have hdoc : (("document" : String) == "clause") = false := by rfl
  have hdoc' : (("document" : String) == "paragraph") = false := by rfl
  have hcl : (("clause" : String) == "clause") = true := by rfl
  have hcl' : (("clause" : String) == "paragraph") = false := by rfl
  refine ⟨?_, ?_, ?_, ?_⟩
  · simp [create_text_chunks]
  · simp [create_text_chunks, fullDocumentChunk]
  · rw [create_text_chunks]
    rw [List.countP_append, List.countP_append, List.countP_map]
    have h1 : List.countP (fun c => c.type == "clause")
        [fullDocumentChunk raw_text] = 0 := by
      simp [List.countP_cons, fullDocumentChunk, hdoc]
    have h2 : List.countP ((fun c => c.type == "clause") ∘ clauseChunk)
        clauses = clauses.length := by
      rw [List.countP_eq_length]
      intro a _
      exact hcl
    have h3 : List.countP (fun c => c.type == "clause")
        (paragraphChunks paragraphs) = 0 := by
      rw [List.countP_eq_zero]
      intro a ha
      rw [(mem_paragraphChunks ha).1]
      simp
    omega
  · rw [create_text_chunks]
    rw [List.countP_append, List.countP_append, List.countP_map]
    have h1 : List.countP (fun c => c.type == "paragraph")
        [fullDocumentChunk raw_text] = 0 := by
      simp [List.countP_cons, fullDocumentChunk, hdoc']
    have h2 : List.countP ((fun c => c.type == "paragraph") ∘ clauseChunk)
        clauses = 0 := by
      rw [List.countP_eq_zero]
      intro a _
      simp [Function.comp, clauseChunk, hcl']
    have h3 : List.countP (fun c => c.type == "paragraph")
        (paragraphChunks paragraphs) ≤ 10 := by
      have hA : List.countP (fun c => c.type == "paragraph")
          (paragraphChunks paragraphs) ≤ (paragraphChunks paragraphs).length :=
        List.countP_le_length _
      have hB := length_paragraphChunks paragraphs
      have hC : ((paragraphs.take 10).countP
            fun p => decide (100 < (p.text.getD "").length))
          ≤ (paragraphs.take 10).length :=
        List.countP_le_length _
      have hD : (paragraphs.take 10).length ≤ 10 := by
        rw [List.length_take]
        exact min_le_left _ _
      omega
    omega

/-- **C9 counterexample** — The claim "for every input, no chunk produced by
the chunker has empty text" fails at the concrete input with empty raw text:
`create_text_chunks "" [] []` contains a (full-document) chunk whose text is
empty. -/
theorem create_text_chunks_empty_text_counterexample :
    ∃ c ∈ create_text_chunks "" [] [], c.text = "" := by
  refine ⟨fullDocumentChunk "", by simp [create_text_chunks], ?_⟩
  simp only [fullDocumentChunk]
  rw [String.ext_iff, String.data_take]
  rfl

/-- **C9 (amended)** — For every input whose raw text is non-empty (which is
what the knowledge-base endpoint guarantees before calling the chunker,
`rag.py` lines 65-69), no chunk produced by the chunker has empty text. -/
theorem create_text_chunks_no_empty_amended (raw_text : String)
    (paragraphs : List PyParagraph) (clauses : List PyClause)
    (h : raw_text ≠ "") :
    ∀ c ∈ create_text_chunks raw_text paragraphs clauses, c.text ≠ "" := by
  intro c hc
  rw [create_text_chunks] at hc
  rcases List.mem_append.mp hc with hc' | hpar
  · rcases List.mem_append.mp hc' with hfull | hclause
    · rw [List.mem_singleton] at hfull
      subst hfull
      simp only [fullDocumentChunk]
      exact string_take_ne_empty h (by norm_num)
    · obtain ⟨cl, _, rfl⟩ := List.mem_map.mp hclause
      show clauseChunkText cl ≠ ""
      intro he
      rw [String.ext_iff] at he
      simp [clauseChunkText] at he
  · have hlen := (mem_paragraphChunks hpar).2
    intro he
    rw [he] at hlen
    exact absurd hlen (by decide)

/-- **C9 witness** — the amended theorem applied at a concrete non-empty
document. -/
theorem create_text_chunks_no_empty_amended_witness :
    ("rent agreement text" ≠ "") ∧
      ∀ c ∈ create_text_chunks "rent agreement text" [] [], c.text ≠ "" :=
  ⟨by decide,
   create_text_chunks_no_empty_amended "rent agreement text" [] [] (by decide)⟩

/-- A paragraph of 101 characters: strictly longer than the 100-character
threshold of `create_text_chunks`. -/
def longParagraph : PyParagraph :=
  { text := some (String.mk (List.replicate 101 'a')), page := some 1,
    confidence := some (9 / 10) }

/-- A paragraph of at most 100 characters: filtered out by
`create_text_chunks`. -/
def shortParagraph : PyParagraph :=
  { text := some "Short paragraph.", page := some 1,
    confidence := some (9 / 10) }

/-- A sample stored clause dict. -/
def sampleClause : PyClause :=
  { clause_type := some "termination",
    original_text := some "Either party may terminate this agreement.",
    plain_language := some "You can end this agreement.",
    risk_level := some "medium",
    risk_reason := some "Standard term.",
    id := some "clause_1" }

/-- Twelve paragraphs, the two short ones placed *inside* the first ten. -/
def twelveParagraphsShortFirst : List PyParagraph :=
  [shortParagraph, shortParagraph] ++ List.replicate 10 longParagraph

/-- Twelve paragraphs, the two short ones placed *after* the first ten. -/
def twelveParagraphsShortLast : List PyParagraph :=
  List.replicate 10 longParagraph ++ [shortParagraph, shortParagraph]

/-- **C3 counterexample** — The claim says a document with 3 clauses and 12
paragraphs of which 2 have text of at most 100 characters yields exactly 14
chunks, "the two short paragraphs being excluded from the pool before the
first 10 are taken".  The code takes `paragraphs[:10]` first and filters
afterwards (`rag.py` lines 162-163), so with the two short paragraphs among
the first ten this input meets every premise of the claim (3 clauses, 12
paragraphs, exactly 2 short, 10 qualifying) yet yields 12 chunks, not 14. -/
theorem create_text_chunks_fourteen_counterexample :
    [sampleClause, sampleClause, sampleClause].length = 3 ∧
    twelveParagraphsShortFirst.length = 12 ∧
    (twelveParagraphsShortFirst.countP
        fun p => decide ((p.text.getD "").length ≤ 100)) = 2 ∧
    (twelveParagraphsShortFirst.countP
        fun p => decide (100 < (p.text.getD "").length)) = 10 ∧
    (create_text_chunks "Full contract text." twelveParagraphsShortFirst
        [sampleClause, sampleClause, sampleClause]).length ≠ 14 := by
  refine ⟨by decide, by decide, by decide, by decide, ?_⟩
  rw [create_text_chunks, List.length_append, List.length_append,
    List.length_map, length_paragraphChunks]
  decide

/-- **C3 (amended)** — For a document with 3 clauses and 12 paragraphs of
which 2 have text of at most 100 characters, building the knowledge base
produces exactly 14 chunks (1 full-document + 3 clause + 10 paragraph)
*provided the two short paragraphs lie after the first 10 in document
order*: the code slices `paragraphs[:10]` first and only then filters out
paragraphs of at most 100 characters, so all of the first ten must
qualify. -/
theorem create_text_chunks_fourteen_amended (raw_text : String)
    (paragraphs : List PyParagraph) (clauses : List PyClause)
    (h3 : clauses.length = 3) (h12 : paragraphs.length = 12)
    (hshort : (paragraphs.countP
        fun p => decide ((p.text.getD "").length ≤ 100)) = 2)
    (hq : ((paragraphs.take 10).countP
        fun p => decide (100 < (p.text.getD "").length)) = 10) :
    (create_text_chunks raw_text paragraphs clauses).length = 14 := by
  rw [create_text_chunks]
  rw [List.length_append, List.length_append, List.length_map,
    length_paragraphChunks, h3, hq]
  rfl

/-- **C3 witness** — the amended theorem applied at a concrete document with
3 clauses and 12 paragraphs whose two short paragraphs come last. -/
theorem create_text_chunks_fourteen_amended_witness :
    ([sampleClause, sampleClause, sampleClause].length = 3 ∧
     twelveParagraphsShortLast.length = 12 ∧
     (twelveParagraphsShortLast.countP
        fun p => decide ((p.text.getD "").length ≤ 100)) = 2 ∧
     (twelveParagraphsShortLast.take 10).countP
        (fun p => decide (100 < (p.text.getD "").length)) = 10) ∧
    (create_text_chunks "Full contract text." twelveParagraphsShortLast
        [sampleClause, sampleClause, sampleClause]).length = 14 :=
  ⟨⟨by decide, by decide, by decide, by decide⟩,
   create_text_chunks_fourteen_amended "Full contract text."
     twelveParagraphsShortLast [sampleClause, sampleClause, sampleClause]
     (by decide) (by decide) (by decide) (by decide)⟩

/-- **C10** — `calculate_overall_risk` is total and always returns one of
`"high"`, `"medium"`, `"low"`; it returns `"medium"` for the empty clause
list, and otherwise — scoring high = 3, medium = 2, low = 1 — returns
`"high"` iff the average score is at least 2.5, `"medium"` iff the average
is at least 1.5 and below 2.5, and `"low"` otherwise. -/
theorem calculate_overall_risk_spec (clauses : List ClauseAnalysis) :
    (calculate_overall_risk clauses = "high" ∨
     calculate_overall_risk clauses = "medium" ∨
     calculate_overall_risk clauses = "low") ∧
    (clauses = [] → calculate_overall_risk clauses = "medium") ∧
    (clauses ≠ [] →
      ((calculate_overall_risk clauses = "high" ↔
          2.5 ≤ average_risk_score clauses) ∧
       (calculate_overall_risk clauses = "medium" ↔
          1.5 ≤ average_risk_score clauses ∧
            average_risk_score clauses < 2.5) ∧
       (calculate_overall_risk clauses = "low" ↔
          average_risk_score clauses < 1.5))) := by
  refine ⟨?_, ?_, ?_⟩
  · unfold calculate_overall_risk
    split_ifs <;> simp
  · intro h
    simp [calculate_overall_risk, h]
  · intro h0
    unfold calculate_overall_risk
    rw [if_neg h0]
    by_cases h1 : (2.5 : ℚ) ≤ average_risk_score clauses
    · rw [if_pos h1]
      refine ⟨⟨fun _ => h1, fun _ => rfl⟩, ?_, ?_⟩
      · constructor
        · intro hme
          exact absurd hme (by decide)
        · rintro ⟨_, hlt⟩
          exact absurd h1 (not_le.mpr hlt)
      · constructor
        · intro hlo
          exact absurd hlo (by decide)
        · intro hlt
          exact absurd h1 (not_le.mpr (hlt.trans (by norm_num)))
    · rw [if_neg h1]
      by_cases h2 : (1.5 : ℚ) ≤ average_risk_score clauses
      · rw [if_pos h2]
        refine ⟨?_, ⟨fun _ => ⟨h2, not_le.mp h1⟩, fun _ => rfl⟩, ?_⟩
        · constructor
          · intro hhi
            exact absurd hhi (by decide)
          · intro hge
            exact absurd hge h1
        · constructor
          · intro hlo
            exact absurd hlo (by decide)
          · intro hlt
            exact absurd h2 (not_le.mpr hlt)
      · rw [if_neg h2]
        refine ⟨?_, ?_, ⟨fun _ => not_le.mp h2, fun _ => rfl⟩⟩
        · constructor
          · intro hhi
            exact absurd hhi (by decide)
          · intro hge
            exact absurd ((by norm_num : (1.5 : ℚ) ≤ 2.5).trans hge) h2
        · constructor
          · intro hme
            exact absurd hme (by decide)
          · rintro ⟨hge, _⟩
            exact absurd hge h2

/-- A concrete high-risk clause for the risk-aggregation witness. -/
def highRiskClause : ClauseAnalysis :=
  { id := "clause_1", clause_type := .penalties,
    original_text := "A penalty of 10% applies to late payments.",
    plain_language := "You pay extra if you are late.",
    risk_level := .high, risk_reason := "Severe penalty.",
    recommendations := ["Negotiate the penalty."],
    confidence_score := 0.8 }

/-- **C10 witness** — the risk-aggregation theorem applied at a concrete
one-clause high-risk list. -/
theorem calculate_overall_risk_spec_witness :
    ([highRiskClause] ≠ ([] : List ClauseAnalysis)) ∧
      (calculate_overall_risk [highRiskClause] = "high" ↔
        2.5 ≤ average_risk_score [highRiskClause]) :=
  ⟨by decide,
   ((calculate_overall_risk_spec [highRiskClause]).2.2 (by decide)).1⟩

/-- **C4 (code bug)** — The claim promises that an unrecognized clause type
in parsed generation output is coerced to `"other"`.  The enum `ClauseType`
has no member with value `"other"` (`models/document.py` lines 29-55), so
the coercion at `vertex_ai.py` lines 204-206 produces the string `"other"`
and the subsequent `ClauseType("other")` call at line 215 raises
`ValueError`: the classifier crashes instead of producing an `"other"`
clause.  This theorem evaluates the classifier at such a failing input. -/
theorem segment_and_classify_unrecognized_type_raises :
    segment_and_classify_clauses "Document text."
      (.parsed [{ clause_type := some "banana",
                  original_text := some "Some clause text.",
                  plain_language := some "Plain explanation.",
                  risk_level := some "high",
                  risk_reason := some "Reason.",
                  recommendations := some ["a", "b", "c", "d"] }])
      = .error .valueError := by
  rfl

/-- **C5 (code bug)** — The claim promises that unparseable generation
output degrades to exactly one synthetic clause (type `other`, risk medium,
confidence 0.3) and that the pipeline never raises.  The fallback at
`vertex_ai.py` lines 230-245 constructs `ClauseType.OTHER`, but the
`ClauseType` enum declares no member `OTHER`, so the fallback itself raises
`AttributeError`: malformed model output does crash the pipeline. -/
theorem segment_and_classify_fallback_raises :
    segment_and_classify_clauses "Unparseable model output." .unparseable
      = .error .attributeError := by
  rfl

/-- A concrete document record still in status `uploaded`. -/
def uploadedDoc : DocRecord :=
  { processing_status := .uploaded,
    raw_text := "Lease agreement text.",
    clauses := [], document_type := none, error_message := none }

/-- **C6 counterexample** — The claim says a classification call on an
`uploaded` document "causes no state mutation beyond what already
occurred".  At this concrete input the endpoint returns the 400
prerequisite error and leaves the clauses alone, but the
`except HTTPException` handler (`vertex_ai.py` lines 103-110) *does* mutate
the document: its processing status changes from `uploaded` to `failed`. -/
theorem classify_on_uploaded_mutates_counterexample :
    (classify_document_clauses uploadedDoc false "rental_agreement"
        (.parsed [])).1
      = .error ⟨400, "Document must complete OCR processing first"⟩ ∧
    (classify_document_clauses uploadedDoc false "rental_agreement"
        (.parsed [])).2.clauses = uploadedDoc.clauses ∧
    (classify_document_clauses uploadedDoc false "rental_agreement"
        (.parsed [])).2.processing_status ≠ uploadedDoc.processing_status := by
  refine ⟨rfl, rfl, by decide⟩

/-- **C6 (amended)** — Calling the clause-classification endpoint on an
existing, accessible document whose processing status is `uploaded` fails
with the prerequisite-not-met 400 condition and does not mutate the
document's clauses; the failure handler does however mutate state: it sets
the processing status to `failed` and the error message to
`"Clause classification failed"`. -/
theorem classify_on_uploaded_amended (doc : DocRecord)
    (type_response_text : String) (clauses_response : GenClausesResponse)
    (h : doc.processing_status = .uploaded) :
    (classify_document_clauses doc false type_response_text
        clauses_response).1
      = .error ⟨400, "Document must complete OCR processing first"⟩ ∧
    (classify_document_clauses doc false type_response_text
        clauses_response).2
      = { doc with processing_status := .failed,
                   error_message := some "Clause classification failed" } := by
  have hne : doc.processing_status ≠ ProcessingStatus.ocr_complete := by
    rw [h]
    decide
  unfold classify_document_clauses
  rw [if_neg (by decide : ¬ (false = true))]
  rw [if_pos hne]
  exact ⟨rfl, rfl⟩

/-- **C6 witness** — the amended theorem applied to a concrete `uploaded`
document. -/
theorem classify_on_uploaded_amended_witness :
    uploadedDoc.processing_status = ProcessingStatus.uploaded ∧
    ((classify_document_clauses uploadedDoc false "rental_agreement"
        (.parsed [])).1
      = .error ⟨400, "Document must complete OCR processing first"⟩ ∧
     (classify_document_clauses uploadedDoc false "rental_agreement"
        (.parsed [])).2
      = { uploadedDoc with processing_status := .failed,
                           error_message := some "Clause classification failed" }) :=
  ⟨rfl,
   classify_on_uploaded_amended uploadedDoc "rental_agreement" (.parsed []) rfl⟩

/-- **C7** — For every QA request, on both the successful path and every
fallback path, the confidence returned by `generate_answer` lies in
[0.0, 1.0] and the returned answer string contains the fixed
non-legal-advice disclaimer as a substring (exhibited as a
prefix/suffix decomposition around `disclaimerText`). -/
theorem generate_answer_spec (outcome : QAGenOutcome) (sources : List String)
    (document_type : String) (legal_context : List QALegalCtx) :
    0 ≤ (generate_answer outcome sources document_type
          legal_context).confidence ∧
    (generate_answer outcome sources document_type
          legal_context).confidence ≤ 1 ∧
    ∃ pre post,
      (generate_answer outcome sources document_type legal_context).answer
        = pre ++ disclaimerText ++ post := by
  cases outcome with
  | parsed ans confidence =>
      refine ⟨le_min (le_max_right _ _) (by norm_num), min_le_right _ _, ?_⟩
      refine ⟨ans.getD
          "I couldn't find relevant information in the document to answer your question."
          ++ "\n\n",
        " Please consult with a qualified attorney for legal decisions.", ?_⟩
      show _ ++ _ = _
      rw [String.append_assoc, String.append_assoc]
      rfl
  | badJson =>
      simp only [generate_answer]
      refine ⟨by norm_num, by norm_num, ?_⟩
      refine ⟨"I found some relevant information in your document, but I'm having trouble providing a detailed analysis right now. Please try rephrasing your question or consult the document clauses directly.\n\n",
        "", ?_⟩
      rw [String.append_empty]
      rfl
  | raisesOther =>
      simp only [generate_answer]
      refine ⟨by norm_num, by norm_num, ?_⟩
      refine ⟨("I encountered an issue while analyzing your question. The document appears to be a "
          ++ (document_type.replace "_" " "))
          ++ ", but I cannot provide a specific answer at this time. Please review the document directly or consult with a legal professional.\n\n",
        "", ?_⟩
      have hB : (", but I cannot provide a specific answer at this time. Please review the document directly or consult with a legal professional.\n\n⚠️ This analysis is for educational purposes only and does not constitute legal advice." : String)
          = ", but I cannot provide a specific answer at this time. Please review the document directly or consult with a legal professional.\n\n"
            ++ disclaimerText := rfl
      rw [String.append_empty, hB, ← String.append_assoc]

/-- The componentwise self-product: `zipWith (*) v v` is the list of
squares. -/
theorem zipWith_mul_self (v : List ℝ) :
    List.zipWith (· * ·) v v = v.map fun x => x ^ 2 := by
  induction v with
  | nil => rfl
  | cons a l ih => simp [ih, pow_two]

/-- The sum of squares of a real vector is nonnegative. -/
theorem sum_sq_nonneg (v : List ℝ) : 0 ≤ (v.map fun x => x ^ 2).sum := by
  apply List.sum_nonneg
  intro x hx
  obtain ⟨y, _, rfl⟩ := List.mem_map.mp hx
  exact sq_nonneg y

/-- **C1** — `calculate_cosine_similarity(v1, v2)` equals
`dot(v1, v2) / (‖v1‖ · ‖v2‖)` when both norms are nonzero (for vectors of
equal dimension), equals exactly 0.0 when either vector has zero norm, and
— being a total function by construction, the guard and the bare `except`
of the source — never raises or divides by zero; in particular, for every
vector of nonzero norm, `calculate_cosine_similarity(v, v) = 1.0`. -/
theorem cosine_similarity_spec :
    (∀ v1 v2 : List ℝ, v1.length = v2.length →
      npNorm v1 ≠ 0 → npNorm v2 ≠ 0 →
      calculate_cosine_similarity v1 v2
        = npDot v1 v2 / (npNorm v1 * npNorm v2)) ∧
    (∀ v1 v2 : List ℝ, npNorm v1 = 0 ∨ npNorm v2 = 0 →
      calculate_cosine_similarity v1 v2 = 0) ∧
    (∀ v : List ℝ, npNorm v ≠ 0 → calculate_cosine_similarity v v = 1) := by
  have key : ∀ v1 v2 : List ℝ, v1.length = v2.length →
      npNorm v1 ≠ 0 → npNorm v2 ≠ 0 →
      calculate_cosine_similarity v1 v2
        = npDot v1 v2 / (npNorm v1 * npNorm v2) := by
    intro v1 v2 hlen h1 h2
    rw [calculate_cosine_similarity, if_neg (not_not_intro hlen),
      if_neg (not_or.mpr ⟨h1, h2⟩)]
  refine ⟨key, ?_, ?_⟩
  · intro v1 v2 h
    rw [calculate_cosine_similarity]
    by_cases hlen : v1.length ≠ v2.length
    · rw [if_pos hlen]
      norm_num
    · rw [if_neg hlen, if_pos h]
      norm_num
  · intro v hv
    rw [key v v rfl hv hv]
    have hdot : npDot v v = (v.map fun x => x ^ 2).sum := by
      rw [npDot, zipWith_mul_self]
    have hnorm : npNorm v * npNorm v = (v.map fun x => x ^ 2).sum :=
      Real.mul_self_sqrt (sum_sq_nonneg v)
    have hS : (v.map fun x => x ^ 2).sum ≠ 0 := by
      intro h0
      apply hv
      rw [npNorm, h0, Real.sqrt_zero]
    rw [hdot, hnorm, div_self hS]

/-- **C1 witness** — the theorem applied at the concrete vector `[3, 4]`,
whose norm is `√25 = 5 ≠ 0`. -/
theorem cosine_similarity_spec_witness :
    npNorm [(3 : ℝ), 4] ≠ 0 ∧
      calculate_cosine_similarity [(3 : ℝ), 4] [(3 : ℝ), 4] = 1 := by
  have h25 : ((([(3 : ℝ), 4]).map fun x => x ^ 2).sum) = 25 := by
    norm_num
  have hn : npNorm [(3 : ℝ), 4] ≠ 0 := by
    rw [npNorm, h25]
    rw [Real.sqrt_ne_zero']
    norm_num
  exact ⟨hn, cosine_similarity_spec.2.2 _ hn⟩

/-- Descending `mergeSort` on search results is sorted by descending
similarity. -/
theorem sorted_mergeSort_results (l : List SearchResult) :
    (l.mergeSort fun a b => decide (b.similarity ≤ a.similarity)).Pairwise
      (fun a b => b.similarity ≤ a.similarity) := by
  refine List.Pairwise.imp (fun h => of_decide_eq_true h) ?_
  apply List.sorted_mergeSort
  · intro a b c h1 h2
    simp only [decide_eq_true_eq] at *
    exact le_trans h2 h1
  · intro a b
    simp only [Bool.or_eq_true, decide_eq_true_eq]
    exact le_total b.similarity a.similarity

/-- **C2** — For every existing accessible document whose
knowledge-base-built flag is set, and every query and nonnegative limit
`k`, the knowledge-base search succeeds and returns results sorted in
descending order of similarity with length
`min(k, number of stored records with a non-empty embedding vector)`;
when the flag is not set, the search fails with the 400
"knowledge base not created" condition. -/
theorem search_knowledge_base_spec (doc : KBDocument)
    (stored : List StoredEmbedding) (query : String)
    (query_vector : List ℝ) (limit : ℤ) (hlim : 0 ≤ limit) :
    (doc.knowledge_base_created = true →
      ∃ resp,
        search_knowledge_base doc stored query query_vector limit
          = .ok resp ∧
        List.Sorted (fun a b => b.similarity ≤ a.similarity) resp.results ∧
        resp.results.length
          = min limit.toNat
              (stored.countP fun e => decide (e.embedding ≠ []))) ∧
    (doc.knowledge_base_created = false →
      search_knowledge_base doc stored query query_vector limit
        = .error ⟨400, "Knowledge base not created for this document"⟩) := by
  constructor
  · intro hkb
    rw [search_knowledge_base, hkb]
    rw [if_neg (by simp)]
    refine ⟨_, rfl, ?_, ?_⟩
    · show List.Sorted _ (pySlice _ limit)
      rw [pySlice, if_pos hlim]
      exact List.Pairwise.sublist (List.take_sublist _ _)
        (sorted_mergeSort_results _)
    · show (pySlice _ limit).length = _
      rw [pySlice, if_pos hlim, List.length_take, List.length_mergeSort]
      rw [length_filterMap_ite stored (fun e => e.embedding ≠ []) _]
  · intro hkb
    rw [search_knowledge_base, hkb]
    rw [if_pos (by simp)]

/-- **C2 witness** — the theorem applied at a concrete knowledge-base-built
document with no stored embeddings and limit 2. -/
theorem search_knowledge_base_spec_witness :
    (0 : ℤ) ≤ 2 ∧ (⟨true⟩ : KBDocument).knowledge_base_created = true ∧
    ∃ resp,
      search_knowledge_base ⟨true⟩ [] "What are the penalties?" [] 2
        = .ok resp ∧
      List.Sorted (fun a b => b.similarity ≤ a.similarity) resp.results ∧
      resp.results.length
        = min (2 : ℤ).toNat
            (List.countP (fun e => decide (e.embedding ≠ []))
              ([] : List StoredEmbedding)) :=
  ⟨by decide, rfl,
   (search_knowledge_base_spec ⟨true⟩ [] "What are the penalties?" [] 2
      (by decide)).1 rfl⟩

end Nayaya
